import Mathlib

/-!
Shallow embedding of the SenseCAP Watcher add-on gateway
(`sensecap_watcher/rootfs/app/main.py`, `sensecap_watcher/app/monitoring.py`,
`sensecap_watcher/rootfs/app/sensecraft_mcp.py`, `app/ha_tools.py`,
`sensecap_watcher/rootfs/app/ha_integration.py`) together with proofs of the
behavioural claims about the outbox, reconnect backoff, perception pipeline,
MCP tool bridge, HTTP check-in handler and bus command router.

Modelling conventions: Python floats become `ℚ`; byte strings become
`List ℕ`; MQTT publishes and event firings become an explicit `Effect`
trace; external collaborators (the vision model, the HA REST API) are
oracles passed in as parameters; `async` sequencing is single-threaded, so
each handler is a pure function from its inputs and pre-state to its
post-state and emitted effects.
-/

namespace SenseCapWatcher

/-- `HAIntegration.NODE_ID` (ha_integration.py line 16). -/
def NODE_ID : String := "sensecap_watcher"

/-- One observable MQTT side effect of a handler.
`publishRaw` is `HAIntegration._publish` on an explicit topic with raw bytes;
`publishState` is `HAIntegration.publish_state` (retained, topic derived from
the `component/object_id` entity id); `fireEvent` is the non-retained event
publish done by `HAIntegration.fire_event` (the `retain` field records the
retain flag passed to `_publish`, which `fire_event` always sets to `false`). -/
inductive Effect where
  | publishRaw (topic : String) (payload : List ℕ) (retain : Bool)
  | publishState (entity : String) (value : String)
  | fireEvent (etype : String) (description : String) (confidence : ℚ) (retain : Bool)
deriving Repr, DecidableEq

/-- `HAIntegration.fire_event` (ha_integration.py lines 534-547): publishes
`{event_type, description, confidence}` to the event topic with
`retain := false`. -/
def fire_event (etype : String) (description : String) (confidence : ℚ) : Effect :=
  Effect.fireEvent etype description confidence false

/-- A vision analysis result as returned by the LLM adapter's `vision` call:
a dict with a `description` and a `confidence` key. -/
structure VisionResult where
  description : String
  confidence : ℚ
deriving Repr, DecidableEq

/-! ## Command Outbox (`WatcherServer._send_to_device`,
`WatcherServer._flush_command_queue`, main.py lines 272-302) -/

/-- `WatcherServer._send_to_device` (main.py lines 272-285).
`connected` models `self._device_ws` being non-`None`; `sendOk` models
whether the `await self._device_ws.send(message)` call raises.  Returns the
new command queue and whether the message was delivered immediately: on a
successful immediate send the queue is untouched, otherwise (no session, or
the send raised) the message is appended to `self._command_queue`. -/
def send_to_device (connected sendOk : Bool) (queue : List String) (msg : String) :
    List String × Bool :=
  if connected && sendOk then (queue, true) else (queue ++ [msg], false)

/-- A sequence of `_send_to_device` calls made while `self._device_ws` is
`None` (device offline): every call takes the append branch. -/
def send_offline (queue : List String) (msgs : List String) : List String :=
  msgs.foldl (fun q m => (send_to_device false false q m).1) queue

/-- The `while self._command_queue:` loop body of
`WatcherServer._flush_command_queue` (main.py lines 293-302): pop the front
message, try to send it; on success continue, on failure re-insert the
message at index 0 and break.  `ok i` models whether the `i`-th send attempt
of this flush succeeds.  Returns the remaining queue and the list of
messages delivered, in delivery order. -/
def flush_loop : List String → ℕ → (ℕ → Bool) → List String × List String
  | [], _, _ => ([], [])
  | m :: rest, i, ok =>
    if ok i then
      let r := flush_loop rest (i + 1) ok
      (r.1, m :: r.2)
    else (m :: rest, [])

/-- `WatcherServer._flush_command_queue` (main.py lines 287-302): a no-op
unless a device WebSocket is present (the empty-queue early return coincides
with `flush_loop [] _ _`). -/
def flush_command_queue (connected : Bool) (queue : List String) (ok : ℕ → Bool) :
    List String × List String :=
  if connected then flush_loop queue 0 ok else (queue, [])

/-! ## Reconnect backoff (`WatcherServer.handle_disconnect`,
`WatcherServer.reset_reconnect_delay`, main.py lines 662-677) -/

/-- `self._max_reconnect_delay` (main.py line 43). -/
def max_reconnect_delay : ℚ := 60

/-- The backoff update performed by `WatcherServer.handle_disconnect`
(main.py lines 668-670): `self._reconnect_delay = min(self._reconnect_delay * 2,
self._max_reconnect_delay)`. -/
def handle_disconnect_delay (delay : ℚ) : ℚ := min (delay * 2) max_reconnect_delay

/-- `WatcherServer.reset_reconnect_delay` (main.py lines 675-677), also the
initial value of `self._reconnect_delay` (main.py line 42). -/
def reset_reconnect_delay : ℚ := 1

/-- The value of `self._reconnect_delay` recorded after `n` successive
disconnects with no intervening successful connection, starting from the
reset value. -/
def delay_after_disconnects (n : ℕ) : ℚ :=
  handle_disconnect_delay^[n] reset_reconnect_delay

/-! ## Scene analysis rate limiter (`MonitoringService.analyze_scene`,
monitoring.py lines 90-118) -/

/-- The mutable state read and written by `analyze_scene`:
`self._last_vision_call` (monitoring.py line 29, initially `0`). -/
structure SceneState where
  lastVisionCall : ℚ
deriving Repr, DecidableEq

/-- The side effects `analyze_scene` can perform beyond its return value:
the `self.llm_adapter.vision(...)` collaborator call (monitoring.py line
106) and the `self.save_snapshot(...)` call (line 109). -/
inductive SceneEffect where
  | visionCall
  | snapshotSave
deriving Repr, DecidableEq

/-- `rate_limit_seconds` (monitoring.py line 93). -/
def rate_limit_seconds : ℚ := 30

/-- `MonitoringService.analyze_scene` (monitoring.py lines 90-118).
`now` models `time.time()`; `vision` models the outcome of the
`llm_adapter.vision` collaborator call (`Except.error` = the call raised).
Returns the new state, the effects performed, and the returned result.
When throttled (`not force and now - last < 30`) it returns `None` with no
effects; otherwise it calls the collaborator, and only on success updates
`_last_vision_call` to `now`, saves a snapshot and returns the result — a
collaborator exception is caught and yields `None` with the timestamp left
unchanged (`self._last_vision_call = current_time` on line 107 runs only
after `vision` returned). -/
def analyze_scene (st : SceneState) (now : ℚ) (force : Bool)
    (vision : Except String VisionResult) :
    SceneState × List SceneEffect × Option VisionResult :=
  if force = false ∧ now - st.lastVisionCall < rate_limit_seconds then
    (st, [], none)
  else
    match vision with
    | Except.ok r =>
        ({ lastVisionCall := now }, [SceneEffect.visionCall, SceneEffect.snapshotSave],
          some r)
    | Except.error _ => (st, [SceneEffect.visionCall], none)

/-! ## Motion detection (`MonitoringService.detect_motion`,
monitoring.py lines 35-67).  Frames are modelled at the greyscale-array
level (`np.array(img.convert("L"))`): a frame is its list of 8-bit pixel
intensities; on equal-size frames no resize happens and the float32
arithmetic on integer intensities is exact, so `ℕ` pixels are faithful. -/

/-- `pixel_change_threshold` (monitoring.py line 51). -/
def pixel_change_threshold : ℕ := 25

/-- Per-pixel absolute greyscale difference `np.abs(current - last)`. -/
def pixelDiff (c l : ℕ) : ℕ := max c l - min c l

/-- `changed_pixels = np.sum(diff > pixel_change_threshold)`
(monitoring.py line 52) on two equal-size greyscale frames. -/
def changed_pixels (cur last : List ℕ) : ℕ :=
  (cur.zip last).countP (fun p => decide (pixelDiff p.1 p.2 > pixel_change_threshold))

/-- `change_ratio = changed_pixels / total_pixels` (monitoring.py line 55),
with `total_pixels = current_arr.size`. -/
def change_ratio (cur last : List ℕ) : ℚ :=
  (changed_pixels cur last : ℚ) / (cur.length : ℚ)

/-- `motion_detected = bool(change_ratio > self._motion_threshold)`
(monitoring.py line 58). -/
def detect_motion (threshold : ℚ) (cur last : List ℕ) : Bool :=
  decide (change_ratio cur last > threshold)

/-- The default `self._motion_threshold` (monitoring.py line 31). -/
def default_motion_threshold : ℚ := 1 / 20

/-! ## Threshold configuration (`MonitoringService.set_motion_threshold`,
`MonitoringService.set_noise_threshold`, monitoring.py lines 253-259) -/

/-- The threshold slice of `PerceptionState`: `self._motion_threshold` and
`self._noise_threshold` (monitoring.py lines 31-32). -/
structure PerceptionThresholds where
  motion_threshold : ℚ
  noise_threshold : ℚ
deriving Repr, DecidableEq

/-- Initial thresholds (monitoring.py lines 31-32): 0.05 and 500. -/
def init_thresholds : PerceptionThresholds :=
  { motion_threshold := 1 / 20, noise_threshold := 500 }

/-- `MonitoringService.set_motion_threshold` (monitoring.py lines 253-255):
`self._motion_threshold = max(0.0, min(1.0, threshold))`. -/
def set_motion_threshold (st : PerceptionThresholds) (t : ℚ) : PerceptionThresholds :=
  { st with motion_threshold := max 0 (min 1 t) }

/-- `MonitoringService.set_noise_threshold` (monitoring.py lines 257-259):
`self._noise_threshold = max(0.0, threshold)`. -/
def set_noise_threshold (st : PerceptionThresholds) (t : ℚ) : PerceptionThresholds :=
  { st with noise_threshold := max 0 t }

/-- A threshold-configuration call, in the order issued. -/
inductive ThresholdCmd where
  | setMotion (t : ℚ)
  | setNoise (t : ℚ)

/-- Apply one threshold-configuration call. -/
def apply_threshold_cmd (st : PerceptionThresholds) : ThresholdCmd → PerceptionThresholds
  | ThresholdCmd.setMotion t => set_motion_threshold st t
  | ThresholdCmd.setNoise t => set_noise_threshold st t

/-- Apply a sequence of threshold-configuration calls. -/
def apply_threshold_cmds (st : PerceptionThresholds) (cmds : List ThresholdCmd) :
    PerceptionThresholds :=
  cmds.foldl apply_threshold_cmd st

/-! ## Device `image` message handler
(`WatcherServer.process_device_message`, `elif msg_type == "image"` branch,
main.py lines 441-466) -/

/-- Whether an effect is an event firing (`HAIntegration.fire_event`) as
opposed to a plain publish. -/
def isEventEffect : Effect → Bool
  | Effect.fireEvent _ _ _ _ => true
  | _ => false

/-- The `image` branch of `WatcherServer.process_device_message`
(main.py lines 441-466).  `imageBytes` is the result of
`bytes.fromhex(payload.get("data", ""))`; `motion` is the value returned by
`self._monitoring.detect_motion(image_bytes)` and `result` the value
returned by `self._monitoring.analyze_scene(image_bytes)` (both external to
this branch).  Emits, in order: the retained raw publish of the image to the
image topic, the motion binary-sensor state, and — when motion was detected
and analysis returned a result — the description truncated to 255 characters
on the last-event sensor.  Nothing else: this branch fires no event. -/
def process_image_message (imageBytes : List ℕ) (motion : Bool)
    (result : Option VisionResult) : List Effect :=
  if imageBytes.isEmpty then []
  else
    [Effect.publishRaw (NODE_ID ++ "/image/snapshot/image") imageBytes true,
      Effect.publishState "binary_sensor/motion_detected"
        (if motion then "ON" else "OFF")] ++
    (if motion then
      match result with
      | some r => [Effect.publishState "sensor/last_event" (r.description.take 255)]
      | none => []
    else [])

/-- One body execution of `MonitoringService.run_monitoring_loop`
(monitoring.py lines 207-240) with monitoring enabled and a frame available:
`motion` is the value returned by `detect_motion`, `result` the value
returned by `analyze_scene`, and `confidence_threshold` is
`self.config.confidence_threshold`.  Publishes the motion binary sensor;
on motion and a result it publishes the description truncated to 255
characters and, if `confidence >= confidence_threshold`, fires the
non-retained `alert` event with the (untruncated) description and the
confidence. -/
def monitoring_iteration (confidence_threshold : ℚ) (motion : Bool)
    (result : Option VisionResult) : List Effect :=
  [Effect.publishState "binary_sensor/motion_detected"
      (if motion then "ON" else "OFF")] ++
  (if motion then
    match result with
    | some r =>
        [Effect.publishState "sensor/last_event" (r.description.take 255)] ++
        (if r.confidence ≥ confidence_threshold then
          [fire_event "alert" r.description r.confidence]
        else [])
    | none => []
  else [])

/-! ## Bus command router, `confidence_threshold` branch
(`WatcherServer._handle_ha_command`, main.py lines 168-171) -/

/-- The configuration slice touched by the `confidence_threshold` command:
`self.config.confidence_threshold` (rootfs config.py line 29, default 0.7). -/
structure WatcherConfig where
  confidence_threshold : ℚ
deriving Repr, DecidableEq

/-- The `component == "number" and object_id == "confidence_threshold"`
branch of `WatcherServer._handle_ha_command` (main.py lines 168-171).
`parseFloat` models Python's `float(payload)` on the raw payload string.
Stores `float(payload) / 100.0` into the configuration and echoes the
original, undivided payload string back to its own state topic. -/
def handle_confidence_threshold_command (parseFloat : String → ℚ)
    (cfg : WatcherConfig) (payload : String) : WatcherConfig × List Effect :=
  ({ cfg with confidence_threshold := parseFloat payload / 100 },
    [Effect.publishState "number/confidence_threshold" payload])

/-! ## SenseCraft MCP tool bridge (`SenseCraftMCP._message_loop`,
`SenseCraftMCP._handle_tool_call`, sensecraft_mcp.py lines 75-177;
`HATools.execute`, ha_tools.py lines 134-138) -/

/-- The names in the static `HA_TOOLS` catalog (ha_tools.py lines 8-120),
the list `tools/list` advertises. -/
def ha_tool_names : List String :=
  ["get_states", "call_service", "get_weather", "send_notification",
    "get_calendar", "control_media"]

/-- `HATools.execute` (ha_tools.py lines 134-138) dispatches with
`getattr(self, tool_name, None)`, which finds *any* attribute of the
instance — not just the six catalog tools.  Beyond those, the class body
defines `execute` and `close` and `__init__` assigns `base_url`, `headers`
and `client`; all are truthy, so none trips the `if not method` check.
This is the concrete attribute table used by the witness (inherited dunder
attributes omitted there; the theorems quantify over the lookup instead). -/
def ha_instance_attributes : List String :=
  ha_tool_names ++ ["execute", "close", "base_url", "headers", "client"]

/-- `HATools.execute` (ha_tools.py lines 134-138): `method = getattr(self,
tool_name, None)`; `if not method: raise ValueError(f"Unknown tool:
{tool_name}")`; `return await method(**args)`.  `attrs name` models whether
`getattr` finds a truthy attribute under `name`; `impl name` is the oracle
for `await method(**args)` on a found attribute: a tool method's serialized
result (`json.dumps` for dict/list, `str` otherwise — e.g. `close()`
returns `None`, serialized `"None"`), or `Except.error` for a raised
exception (an HTTP failure, or the `TypeError` from calling a non-callable
attribute such as `base_url` or a method with a mismatched signature). -/
def HATools_execute (attrs : String → Bool)
    (impl : String → Except String String) (name : String) :
    Except String String :=
  if attrs name then impl name
  else Except.error ("Unknown tool: " ++ name)

/-- One MCP content block `{type, text}`. -/
structure ContentBlock where
  btype : String
  text : String
deriving Repr, DecidableEq

/-- The `result` object of a `tools/call` reply:
`{content: [...], isError: ...}` with the JSON-RPC `id` echoed. -/
structure ToolCallReply where
  id : Option ℕ
  content : List ContentBlock
  isError : Bool
deriving Repr, DecidableEq

/-- `SenseCraftMCP._handle_tool_call` (sensecraft_mcp.py lines 139-177):
runs `HATools.execute`; on success replies with the serialized result in a
single text content block and `isError: false`; on any exception — including
the unknown-tool `ValueError` — replies with a single `Error: ...` text
block and `isError: true`.  Total function: the exception never escapes the
handler. -/
def handle_tool_call (attrs : String → Bool)
    (impl : String → Except String String) (msg_id : Option ℕ)
    (name : String) : ToolCallReply :=
  match HATools_execute attrs impl name with
  | Except.ok t => ⟨msg_id, [⟨"text", t⟩], false⟩
  | Except.error e => ⟨msg_id, [⟨"text", "Error: " ++ e⟩], true⟩

/-- An inbound broker message, dispatched on its `method` field
(sensecraft_mcp.py lines 83-100).  `response` covers messages carrying
`result`/`error` (replies to our own requests); `other` covers unknown
methods. -/
inductive MCPMessage where
  | initReq (id : Option ℕ)
  | initialized
  | toolsList (id : Option ℕ)
  | toolsCall (id : Option ℕ) (name : String)
  | ping (id : Option ℕ)
  | response
  | other
deriving Repr, DecidableEq

/-- A reply sent back over the bridge socket. -/
inductive BridgeReply where
  | initializeResult (id : Option ℕ)
  | toolsListResult (id : Option ℕ) (tools : List String)
  | toolCallResult (r : ToolCallReply)
  | pingResult (id : Option ℕ)
deriving Repr, DecidableEq

/-- One dispatch step of `SenseCraftMCP._message_loop` (sensecraft_mcp.py
lines 83-100): the reply sent for one inbound message, if any. -/
def process_mcp_message (attrs : String → Bool)
    (impl : String → Except String String) :
    MCPMessage → Option BridgeReply
  | MCPMessage.initReq i => some (BridgeReply.initializeResult i)
  | MCPMessage.initialized => none
  | MCPMessage.toolsList i => some (BridgeReply.toolsListResult i ha_tool_names)
  | MCPMessage.toolsCall i n =>
      some (BridgeReply.toolCallResult (handle_tool_call attrs impl i n))
  | MCPMessage.ping i => some (BridgeReply.pingResult i)
  | MCPMessage.response => none
  | MCPMessage.other => none

/-- `SenseCraftMCP._message_loop` over a finite inbound message sequence:
the replies sent, in order.  The loop never terminates early on a tool
failure because `_handle_tool_call` catches every collaborator exception. -/
def message_loop (attrs : String → Bool)
    (impl : String → Except String String)
    (msgs : List MCPMessage) : List BridgeReply :=
  msgs.filterMap (process_mcp_message attrs impl)

/-! ## OTA check-in endpoint (`WatcherServer.handle_ota_post`,
main.py lines 554-598) -/

/-- A value produced by `json.loads`: the handler's body can be any JSON
value, not only an object — the distinction drives its error behaviour. -/
inductive Json where
  | null
  | bool (b : Bool)
  | num (q : ℚ)
  | str (s : String)
  | arr (xs : List Json)
  | obj (kvs : List (String × Json))

/-- Python `value.get(key, default)`: succeeds only when `value` is a dict
(main.py lines 563-567 call `.get` on `device_info`, `app_info` and
`board_info`); on any other value it raises `AttributeError`, which the
handler's outer `except` turns into a 500 response. -/
def py_dict_get (j : Json) (key : String) (default : Json) :
    Except String Json :=
  match j with
  | Json.obj kvs => Except.ok ((kvs.lookup key).getD default)
  | _ => Except.error "AttributeError: no attribute get"

/-- `mac.replace(":", "").lower()` for a string `mac` (main.py line 569). -/
def clean_mac (mac : String) : String :=
  if mac = "unknown" then "unknown"
  else String.mk ((mac.toList.filter (fun c => c ≠ ':')).map Char.toLower)

/-- `mac_clean = mac.replace(":", "").lower() if mac != "unknown" else
"unknown"` (main.py line 569) on the JSON value fetched for
`mac_address`: a non-string value other than the absent-field default is
`!= "unknown"` and has no `.replace`, raising `AttributeError` (caught by
the outer `except` as a 500). -/
def py_mac_clean (mac : Json) : Except String String :=
  match mac with
  | Json.str s => Except.ok (clean_mac s)
  | _ => Except.error "AttributeError: no attribute replace"

/-- `request.host.split(":")[0]` (main.py line 580): the host part of the
HTTP `Host` the device used, with any port suffix dropped. -/
def host_without_port (host : String) : String :=
  String.mk (host.toList.takeWhile (fun c => c ≠ ':'))

/-- The observable check-in response: HTTP status and, on success, the
WebSocket URL inside the body's `websocket.url` field (`none` on the
error-body 500 path). -/
structure OtaResponse where
  status : ℕ
  websocket_url : Option String
deriving Repr, DecidableEq

/-- `WatcherServer.handle_ota_post` (main.py lines 554-598).  `host` is
`request.host`, `websocket_port` is `self.config.websocket_port`, `remote`
is `request.remote`, and `body` is the `json.loads` result (`none` when the
read bytes are empty or not JSON — exactly the `JSONDecodeError` /
`UnicodeDecodeError` cases the inner `except` replaces with `{}`).  The
field accesses then run in source order — `application`, `board`,
`version`, `ip`, `mac_address`, the mac normalization — and the first
`AttributeError` among them falls to the outer `except`, which answers 500
with an error body; otherwise the handler answers 200 with the WebSocket
URL.  Also returns the `mac_clean` value stored into `self._device_mac`
(`none` when the error path skipped the store). -/
def handle_ota_post (host : String) (websocket_port : ℕ) (remote : String)
    (body : Option Json) : OtaResponse × Option String :=
  let device_info := body.getD (Json.obj [])
  match py_dict_get device_info "application" (Json.obj []) with
  | Except.error _ => ({ status := 500, websocket_url := none }, none)
  | Except.ok app_info =>
    match py_dict_get device_info "board" (Json.obj []) with
    | Except.error _ => ({ status := 500, websocket_url := none }, none)
    | Except.ok board_info =>
      match py_dict_get app_info "version" (Json.str "unknown") with
      | Except.error _ => ({ status := 500, websocket_url := none }, none)
      | Except.ok _device_version =>
        match py_dict_get board_info "ip" (Json.str remote) with
        | Except.error _ => ({ status := 500, websocket_url := none }, none)
        | Except.ok _device_ip =>
          match py_dict_get device_info "mac_address" (Json.str "unknown") with
          | Except.error _ => ({ status := 500, websocket_url := none }, none)
          | Except.ok mac =>
            match py_mac_clean mac with
            | Except.error _ => ({ status := 500, websocket_url := none }, none)
            | Except.ok mac_clean =>
              ({ status := 200,
                 websocket_url :=
                   some ("ws://" ++ host_without_port host ++ ":" ++
                     toString websocket_port ++ "/ws") },
                some mac_clean)

/-- The bodies on which `handle_ota_post` reaches the 200 path: the body is
absent/unparseable (replaced by `{}`), or it is a JSON object whose
`application` and `board` fields, when present, are objects and whose
`mac_address`, when present, is a string.  Derived from the handler's
control flow, for stating its status characterization. -/
def checkin_body_ok : Option Json → Bool
  | none => true
  | some (Json.obj kvs) =>
      (match (kvs.lookup "application").getD (Json.obj []) with
        | Json.obj _ => true
        | _ => false)
      && (match (kvs.lookup "board").getD (Json.obj []) with
        | Json.obj _ => true
        | _ => false)
      && (match (kvs.lookup "mac_address").getD (Json.str "unknown") with
        | Json.str _ => true
        | _ => false)
  | some _ => false

/-! ## Snapshot retention (`MonitoringService._cleanup_snapshots`,
monitoring.py lines 140-191) -/

/-- A snapshot file on disk: its path and modification time
(`os.path.getmtime`). -/
structure SnapFile where
  name : String
  mtime : ℚ
deriving Repr, DecidableEq

/-- `MAX_SNAPSHOTS` (monitoring.py line 17). -/
def MAX_SNAPSHOTS : ℕ := 100

/-- `max_age_seconds = MAX_AGE_DAYS * 24 * 60 * 60` with `MAX_AGE_DAYS = 7`
(monitoring.py lines 18, 150). -/
def max_age_seconds : ℚ := 7 * 24 * 60 * 60

/-- The files surviving the age pass (monitoring.py lines 160-166): every
file with `age > max_age_seconds` is removed, regardless of how many files
there are; the re-glob on line 168 then sees exactly the survivors. -/
def snapshot_survivors (now : ℚ) (files : List SnapFile) : List SnapFile :=
  files.filter (fun f => decide (now - f.mtime ≤ max_age_seconds))

/-- Insert a file into a list that is ascending by `mtime`, mirroring one
step of `files_with_mtime.sort(key=lambda x: x[1])` (monitoring.py
line 180). -/
def insertByMtime (f : SnapFile) : List SnapFile → List SnapFile
  | [] => [f]
  | g :: gs => if f.mtime < g.mtime then f :: g :: gs else g :: insertByMtime f gs

/-- Sort by ascending modification time (monitoring.py line 180). -/
def sortByMtime : List SnapFile → List SnapFile
  | [] => []
  | f :: fs => insertByMtime f (sortByMtime fs)

/-- `MonitoringService._cleanup_snapshots` (monitoring.py lines 140-191),
one pass over the current file set: first the age pass deletes every file
older than 7 days; then, if more than `MAX_SNAPSHOTS` files remain, the
excess pass sorts the remainder by ascending mtime and deletes the first
`len - MAX_SNAPSHOTS` of them (`files_with_mtime[:files_to_delete]`,
lines 182-188); `os.remove`/`os.path.getmtime` faults are modelled as
absent. -/
def cleanup_snapshots (now : ℚ) (files : List SnapFile) : List SnapFile :=
  if (snapshot_survivors now files).length ≤ MAX_SNAPSHOTS then
    snapshot_survivors now files
  else
    (sortByMtime (snapshot_survivors now files)).drop
      ((snapshot_survivors now files).length - MAX_SNAPSHOTS)

end SenseCapWatcher

namespace SenseCapWatcher

/-! ## Theorems: Command Outbox (C2) -/

theorem send_offline_eq_append (queue msgs : List String) :
    send_offline queue msgs = queue ++ msgs := by
  induction msgs generalizing queue with
  | nil => simp [send_offline]
  | cons m ms ih =>
    have h : send_offline queue (m :: ms) = send_offline (queue ++ [m]) ms := rfl
    rw [h, ih]
    simp

theorem flush_loop_all_ok (queue : List String) (i : ℕ) :
    flush_loop queue i (fun _ => true) = ([], queue) := by
  induction queue generalizing i with
  | nil => rfl
  | cons m rest ih => simp [flush_loop, ih]

theorem flush_loop_fail (queue : List String) (ok : ℕ → Bool) (i k : ℕ)
    (hok : ∀ j, j < k → ok (i + j) = true) (hfail : ok (i + k) = false) :
    flush_loop queue i ok = (queue.drop k, queue.take k) := by
  induction queue generalizing i k with
  | nil => simp [flush_loop]
  | cons m rest ih =>
    cases k with
    | zero =>
      have h0 : ok i = false := by simpa using hfail
      simp [flush_loop, h0]
    | succ k =>
      have h0 : ok i = true := by simpa using hok 0 (Nat.succ_pos k)
      have h1 : ∀ j, j < k → ok ((i + 1) + j) = true := by
        intro j hj
        have := hok (j + 1) (by omega)
        have harg : i + (j + 1) = (i + 1) + j := by omega
        rwa [harg] at this
      have h2 : ok ((i + 1) + k) = false := by
        have harg : i + (k + 1) = (i + 1) + k := by omega
        rwa [harg] at hfail
      simp [flush_loop, h0, ih (i + 1) k h1 h2]

/-- C2: messages sent while no device session is active are appended to the
command queue in call order and never dropped; a flush with every send
succeeding delivers the whole queue front-first in exactly that order; a
flush whose `k`-th send attempt fails delivers exactly the first `k`
messages, re-inserts the failed message at the front, and stops without
skipping any message. -/
theorem outbox_fifo_order (queue msgs : List String) (ok : ℕ → Bool) (k : ℕ)
    (hok : ∀ j, j < k → ok j = true) (hfail : ok k = false) :
    send_offline queue msgs = queue ++ msgs
    ∧ flush_command_queue true (queue ++ msgs) (fun _ => true) = ([], queue ++ msgs)
    ∧ flush_command_queue true queue ok = (queue.drop k, queue.take k) := by
  refine ⟨send_offline_eq_append queue msgs, ?_, ?_⟩
  · simpa [flush_command_queue] using flush_loop_all_ok (queue ++ msgs) 0
  · have hok0 : ∀ j, j < k → ok (0 + j) = true := by
      intro j hj
      simpa using hok j hj
    have hfail0 : ok (0 + k) = false := by simpa using hfail
    simpa [flush_command_queue] using flush_loop_fail queue ok 0 k hok0 hfail0

/-- Witness for `outbox_fifo_order`: queue `["A","B","C"]` built offline from
messages `["B","C"]`, flushed with the second send attempt failing: message
`"A"` is delivered, `"B"` goes back to the front, `"C"` is not skipped. -/
theorem outbox_fifo_order_witness :
    (∀ j, j < 1 → (fun i => decide (i ≠ 1)) j = true)
    ∧ ((fun i => decide (i ≠ 1)) 1 = false)
    ∧ (send_offline ["A", "B", "C"] ["D"] = ["A", "B", "C"] ++ ["D"]
       ∧ flush_command_queue true (["A", "B", "C"] ++ ["D"]) (fun _ => true) =
           ([], ["A", "B", "C"] ++ ["D"])
       ∧ flush_command_queue true ["A", "B", "C"] (fun i => decide (i ≠ 1)) =
           (["A", "B", "C"].drop 1, ["A", "B", "C"].take 1)) :=
  ⟨by decide, by decide,
    outbox_fifo_order ["A", "B", "C"] ["D"] (fun i => decide (i ≠ 1)) 1
      (by decide) (by decide)⟩

/-! ## Theorems: Reconnect backoff (C3) -/

theorem delay_closed_form (n : ℕ) :
    delay_after_disconnects n = min ((2 : ℚ) ^ n) 60 := by
  induction n with
  | zero =>
    simp only [delay_after_disconnects, Function.iterate_zero, id_eq,
      reset_reconnect_delay]
    rw [pow_zero, min_eq_left (by norm_num)]
  | succ n ih =>
    rw [delay_after_disconnects, Function.iterate_succ_apply',
      ← delay_after_disconnects, ih]
    unfold handle_disconnect_delay max_reconnect_delay
    rcases le_total ((2 : ℚ) ^ n) 60 with h | h
    · rw [min_eq_left h, pow_succ]
    · rw [min_eq_right h]
      have h2 : (60 : ℚ) ≤ 2 ^ (n + 1) := by
        have hnn : (0 : ℚ) ≤ 2 ^ n := by positivity
        rw [pow_succ]
        nlinarith
      rw [min_eq_right h2]
      norm_num

/-- C3 counterexample: the delay recorded after the first disconnect from a
freshly reset state is 2 seconds, not the 1 second the claimed sequence
`1, 2, 4, …` begins with (`handle_disconnect` doubles the delay before it is
recorded). -/
theorem backoff_first_delay_counterexample :
    delay_after_disconnects 1 = 2 ∧ delay_after_disconnects 1 ≠ 1 := by
  constructor
  · rw [delay_closed_form]
    norm_num
  · rw [delay_closed_form]
    norm_num

/-- C3 (amended): after `n ≥ 1` successive disconnects with no intervening
successful connection the recorded reconnect delay is `min (2^n) 60`, i.e.
the sequence `2, 4, 8, 16, 32, 60, 60, …` (doubling with ceiling 60); a
successful new connection resets the delay to the floor of 1 second. -/
theorem backoff_sequence (n : ℕ) :
    delay_after_disconnects n = min ((2 : ℚ) ^ n) 60
    ∧ reset_reconnect_delay = 1 :=
  ⟨delay_closed_form n, rfl⟩

/-! ## Theorems: scene analysis rate limiting (C5) -/

/-- C5 counterexample: from the initial state, a first non-forced call whose
vision collaborator raises leaves `_last_vision_call` at 0, so a second
non-forced call only 10 seconds later is *not* throttled and returns a
result — refuting the claim that for any two non-forced calls less than 30
seconds apart the second returns no result. -/
theorem scene_rate_limit_counterexample :
    (analyze_scene
        (analyze_scene ⟨0⟩ 100 false (Except.error "vision failed")).1
        110 false (Except.ok ⟨"a cat", 9 / 10⟩)).2.2 =
      some ⟨"a cat", 9 / 10⟩ := by
  have h1 : analyze_scene ⟨0⟩ 100 false (Except.error "vision failed") =
      (⟨0⟩, [SceneEffect.visionCall], none) := by
    unfold analyze_scene
    rw [if_neg]
    rintro ⟨-, h⟩
    norm_num [rate_limit_seconds] at h
  rw [h1]
  unfold analyze_scene
  rw [if_neg]
  rintro ⟨-, h⟩
  norm_num [rate_limit_seconds] at h

/-- C5 (amended): if a non-forced call at `t1` is not throttled and its
vision call succeeds, then `_last_vision_call` becomes `t1` and any second
non-forced call less than 30 seconds later returns no result (not an error)
with no side effects — no collaborator call, no snapshot save, no timestamp
update; a call with `force = true` always reaches the vision collaborator
regardless of the time since the last analysis. -/
theorem scene_rate_limit (st : SceneState) (t1 t2 : ℚ) (r1 : VisionResult)
    (v2 v3 : Except String VisionResult)
    (hfirst : ¬ t1 - st.lastVisionCall < rate_limit_seconds)
    (hgap : t2 - t1 < rate_limit_seconds) :
    analyze_scene st t1 false (Except.ok r1) =
        ({ lastVisionCall := t1 },
          [SceneEffect.visionCall, SceneEffect.snapshotSave], some r1)
    ∧ analyze_scene { lastVisionCall := t1 } t2 false v2 =
        ({ lastVisionCall := t1 }, [], none)
    ∧ SceneEffect.visionCall ∈ (analyze_scene st t2 true v3).2.1 := by
  refine ⟨?_, ?_, ?_⟩
  · unfold analyze_scene
    rw [if_neg]
    rintro ⟨-, h⟩
    exact hfirst h
  · unfold analyze_scene
    rw [if_pos ⟨rfl, hgap⟩]
  · unfold analyze_scene
    rw [if_neg (by simp)]
    cases v3 <;> simp

/-- Witness for `scene_rate_limit` at concrete times 100 and 110. -/
theorem scene_rate_limit_witness :
    ¬ (100 : ℚ) - (⟨0⟩ : SceneState).lastVisionCall < rate_limit_seconds
    ∧ (110 : ℚ) - 100 < rate_limit_seconds
    ∧ (analyze_scene ⟨0⟩ 100 false (Except.ok ⟨"a dog", 1⟩) =
        ({ lastVisionCall := 100 },
          [SceneEffect.visionCall, SceneEffect.snapshotSave], some ⟨"a dog", 1⟩)
       ∧ analyze_scene { lastVisionCall := 100 } 110 false (Except.error "e") =
           ({ lastVisionCall := 100 }, [], none)
       ∧ SceneEffect.visionCall ∈
           (analyze_scene ⟨0⟩ 110 true (Except.ok ⟨"a dog", 1⟩)).2.1) :=
  ⟨by norm_num [rate_limit_seconds], by norm_num [rate_limit_seconds],
    scene_rate_limit ⟨0⟩ 100 110 ⟨"a dog", 1⟩ (Except.error "e")
      (Except.ok ⟨"a dog", 1⟩) (by norm_num [rate_limit_seconds])
      (by norm_num [rate_limit_seconds])⟩

/-! ## Theorems: motion detection (C7) -/

theorem changed_pixels_le_length (cur last : List ℕ) :
    changed_pixels cur last ≤ cur.length := by
  unfold changed_pixels
  have h1 := List.countP_le_length
    (fun p : ℕ × ℕ => decide (pixelDiff p.1 p.2 > pixel_change_threshold))
    (l := cur.zip last)
  have h2 : (cur.zip last).length ≤ cur.length := by
    rw [List.length_zip]
    omega
  omega

theorem changed_pixels_self (cur : List ℕ) : changed_pixels cur cur = 0 := by
  induction cur with
  | nil => rfl
  | cons a t ih =>
    simpa [changed_pixels, List.countP_cons, pixelDiff, pixel_change_threshold]
      using ih

/-- C7: on equal-size greyscale frames, motion is reported exactly when the
ratio of pixels whose absolute difference exceeds 25 is greater than the
motion threshold; identical consecutive frames give ratio 0 and no motion
(for any non-negative threshold, in particular the default 0.05); and a
frame in which more than 5% of the pixels differ by more than 25 intensity
levels yields motion at the default threshold 0.05. -/
theorem motion_detection (cur last : List ℕ) (θ : ℚ)
    (hlen : cur.length = last.length) (hθ : 0 ≤ θ) :
    (detect_motion θ cur last = true ↔ change_ratio cur last > θ)
    ∧ change_ratio cur cur = 0
    ∧ detect_motion θ cur cur = false
    ∧ (20 * changed_pixels cur last > cur.length →
        detect_motion default_motion_threshold cur last = true) := by
  have hself : change_ratio cur cur = 0 := by
    unfold change_ratio
    rw [changed_pixels_self]
    simp
  refine ⟨by simp [detect_motion], hself, ?_, ?_⟩
  · unfold detect_motion
    rw [hself]
    simpa using not_lt.mpr hθ
  · intro hcount
    have hub := changed_pixels_le_length cur last
    have hpos : 0 < cur.length := by omega
    unfold detect_motion default_motion_threshold
    rw [decide_eq_true_iff]
    unfold change_ratio
    rw [gt_iff_lt, div_lt_div_iff₀ (by norm_num) (by exact_mod_cast hpos)]
    have : (cur.length : ℚ) < 20 * (changed_pixels cur last : ℚ) := by
      exact_mod_cast (by omega : cur.length < 20 * changed_pixels cur last)
    linarith

/-- Witness for `motion_detection`: frames `[0, 0, 0]` vs `[100, 0, 0]`
(one of three pixels differs by 100 > 25, ratio 1/3 > 0.05). -/
theorem motion_detection_witness :
    ([0, 0, 0] : List ℕ).length = ([100, 0, 0] : List ℕ).length
    ∧ (0 : ℚ) ≤ default_motion_threshold
    ∧ ((detect_motion default_motion_threshold [0, 0, 0] [100, 0, 0] = true ↔
          change_ratio [0, 0, 0] [100, 0, 0] > default_motion_threshold)
       ∧ change_ratio [0, 0, 0] [0, 0, 0] = 0
       ∧ detect_motion default_motion_threshold [0, 0, 0] [0, 0, 0] = false
       ∧ (20 * changed_pixels [0, 0, 0] [100, 0, 0] > ([0, 0, 0] : List ℕ).length →
           detect_motion default_motion_threshold [0, 0, 0] [100, 0, 0] = true)) :=
  ⟨by decide, by norm_num [default_motion_threshold],
    motion_detection [0, 0, 0] [100, 0, 0] default_motion_threshold (by decide)
      (by norm_num [default_motion_threshold])⟩

/-! ## Theorems: device image messages and alerts (C1) -/

set_option maxRecDepth 4000 in
/-- C1 counterexample: an `image` device message with non-empty decoded
bytes, motion detected, and an analysis result of confidence 1 — which is
at least the default configured threshold 0.7 — produces no event firing at
all in `process_device_message`: only the raw image publish, the motion
binary-sensor publish and the truncated last-event publish. -/
theorem image_alert_counterexample :
    (7 / 10 : ℚ) ≤ (1 : ℚ)
    ∧ process_image_message [255] true (some ⟨"a burglar", 1⟩) =
        [Effect.publishRaw (NODE_ID ++ "/image/snapshot/image") [255] true,
          Effect.publishState "binary_sensor/motion_detected" "ON",
          Effect.publishState "sensor/last_event" (("a burglar" : String).take 255)]
    ∧ (process_image_message [255] true (some ⟨"a burglar", 1⟩)).countP
        isEventEffect = 0 :=
  ⟨by norm_num, by simp [process_image_message], by decide⟩

/-- C1 (amended): for every device `image` message with non-empty decoded
bytes, motion detected and an analysis result, the handler publishes the
retained image bytes, the motion state and the description truncated to 255
characters — and fires no event whatsoever (the `alert` event is not emitted
on this path).  The non-retained `alert` event carrying the description and
confidence is emitted only by the monitoring loop, which does so exactly
when the result's confidence is at least the configured threshold. -/
theorem image_message_and_alert (imageBytes : List ℕ) (r : VisionResult)
    (θ : ℚ) (hne : imageBytes ≠ []) :
    process_image_message imageBytes true (some r) =
        [Effect.publishRaw (NODE_ID ++ "/image/snapshot/image") imageBytes true,
          Effect.publishState "binary_sensor/motion_detected" "ON",
          Effect.publishState "sensor/last_event" (r.description.take 255)]
    ∧ (∀ e ∈ process_image_message imageBytes true (some r),
        isEventEffect e = false)
    ∧ monitoring_iteration θ true (some r) =
        [Effect.publishState "binary_sensor/motion_detected" "ON",
          Effect.publishState "sensor/last_event" (r.description.take 255)] ++
        (if θ ≤ r.confidence then
          [Effect.fireEvent "alert" r.description r.confidence false]
        else []) := by
  obtain ⟨a, t, rfl⟩ : ∃ a t, imageBytes = a :: t := by
    cases imageBytes with
    | nil => exact absurd rfl hne
    | cons a t => exact ⟨a, t, rfl⟩
  have h1 : process_image_message (a :: t) true (some r) =
      [Effect.publishRaw (NODE_ID ++ "/image/snapshot/image") (a :: t) true,
        Effect.publishState "binary_sensor/motion_detected" "ON",
        Effect.publishState "sensor/last_event" (r.description.take 255)] := by
    simp [process_image_message]
  refine ⟨h1, ?_, ?_⟩
  · intro e he
    rw [h1] at he
    simp only [List.mem_cons, List.not_mem_nil, or_false] at he
    rcases he with h | h | h <;> subst h <;> rfl
  · simp [monitoring_iteration, fire_event, ge_iff_le]

/-- Witness for `image_message_and_alert` on a one-byte image and a result
of confidence 1 at threshold 0.7. -/
theorem image_message_and_alert_witness :
    ([255] : List ℕ) ≠ []
    ∧ (process_image_message [255] true (some ⟨"hi", 1⟩) =
        [Effect.publishRaw (NODE_ID ++ "/image/snapshot/image") [255] true,
          Effect.publishState "binary_sensor/motion_detected" "ON",
          Effect.publishState "sensor/last_event" ((("hi" : String)).take 255)]
       ∧ (∀ e ∈ process_image_message [255] true (some ⟨"hi", 1⟩),
            isEventEffect e = false)
       ∧ monitoring_iteration (7 / 10) true (some ⟨"hi", 1⟩) =
          [Effect.publishState "binary_sensor/motion_detected" "ON",
            Effect.publishState "sensor/last_event" ((("hi" : String)).take 255)] ++
          (if (7 / 10 : ℚ) ≤ (1 : ℚ) then
            [Effect.fireEvent "alert" "hi" 1 false]
          else [])) :=
  ⟨by decide, image_message_and_alert [255] ⟨"hi", 1⟩ (7 / 10) (by decide)⟩

/-! ## Theorems: confidence-threshold command scaling (C10) -/

/-- C10: the `confidence_threshold` bus command stores `float(payload)/100`
into the configuration (percent scale to fraction), echoes the original
undivided payload back to its own state topic, and the stored fraction is
exactly what the monitoring loop compares vision-result confidence against:
the `alert` event fires iff `confidence ≥ float(payload)/100`. -/
theorem confidence_threshold_command (parseFloat : String → ℚ)
    (cfg : WatcherConfig) (payload : String) (r : VisionResult) :
    (handle_confidence_threshold_command parseFloat cfg payload).1.confidence_threshold
        = parseFloat payload / 100
    ∧ (handle_confidence_threshold_command parseFloat cfg payload).2
        = [Effect.publishState "number/confidence_threshold" payload]
    ∧ (fire_event "alert" r.description r.confidence ∈
        monitoring_iteration
          (handle_confidence_threshold_command parseFloat cfg payload).1.confidence_threshold
          true (some r)
        ↔ parseFloat payload / 100 ≤ r.confidence) := by
  refine ⟨rfl, rfl, ?_⟩
  rcases le_or_lt (parseFloat payload / 100) r.confidence with hc | hc
  · simp [monitoring_iteration, handle_confidence_threshold_command, fire_event,
      ge_iff_le, hc]
  · simp [monitoring_iteration, handle_confidence_threshold_command, fire_event,
      ge_iff_le, hc, not_le.mpr hc]

/-! ## Theorems: MCP `tools/call` dispatch (C4) -/

/-- C4: for every `tools/call` request, a collaborator result — whatever
attribute `getattr` dispatched to, a catalog tool or e.g. `close` — is
wrapped in a single text content block with `isError: false`; a collaborator
exception yields `isError: true` with a single error-message text block,
and an unknown tool name (no truthy attribute of that name, so
`HATools.execute` raises `ValueError("Unknown tool: ...")`) is one such
exception; `handle_tool_call` is total, so the exception never propagates
past the handler, and the message loop processes every message after the
call regardless of its outcome. -/
theorem tool_call_replies (attrs : String → Bool)
    (impl : String → Except String String)
    (i : Option ℕ) (name t e : String) (pre post : List MCPMessage) :
    (HATools_execute attrs impl name = Except.ok t →
        handle_tool_call attrs impl i name = ⟨i, [⟨"text", t⟩], false⟩)
    ∧ (HATools_execute attrs impl name = Except.error e →
        handle_tool_call attrs impl i name =
          ⟨i, [⟨"text", "Error: " ++ e⟩], true⟩)
    ∧ (attrs name = false →
        HATools_execute attrs impl name =
          Except.error ("Unknown tool: " ++ name)
        ∧ handle_tool_call attrs impl i name =
          ⟨i, [⟨"text", "Error: " ++ ("Unknown tool: " ++ name)⟩], true⟩)
    ∧ message_loop attrs impl (pre ++ MCPMessage.toolsCall i name :: post) =
        message_loop attrs impl pre ++
          BridgeReply.toolCallResult (handle_tool_call attrs impl i name) ::
            message_loop attrs impl post := by
  refine ⟨?_, ?_, ?_, ?_⟩
  · intro h
    unfold handle_tool_call
    rw [h]
  · intro h
    unfold handle_tool_call
    rw [h]
  · intro h
    have hexec : HATools_execute attrs impl name =
        Except.error ("Unknown tool: " ++ name) := by
      unfold HATools_execute
      rw [h]
      rfl
    refine ⟨hexec, ?_⟩
    unfold handle_tool_call
    rw [hexec]
  · simp [message_loop, List.filterMap_append, List.filterMap_cons,
      process_mcp_message]

/-- Witness for `tool_call_replies` over the concrete attribute table of
`HATools`: the catalog tool `get_weather` succeeding; the non-tool
attribute `close`, which `getattr` still finds, succeeding with the
serialized `None` and `isError: false`; the genuinely unknown name
`frobnicate` answered `Unknown tool` with `isError: true`; and a loop that
keeps replying to a `ping` after the failed call. -/
theorem tool_call_replies_witness :
    handle_tool_call (fun n => ha_instance_attributes.contains n)
        (fun n => if n = "close" then Except.ok "None" else Except.ok "{}")
        (some 1) "get_weather" = ⟨some 1, [⟨"text", "{}"⟩], false⟩
    ∧ handle_tool_call (fun n => ha_instance_attributes.contains n)
        (fun n => if n = "close" then Except.ok "None" else Except.ok "{}")
        (some 2) "close" = ⟨some 2, [⟨"text", "None"⟩], false⟩
    ∧ handle_tool_call (fun n => ha_instance_attributes.contains n)
        (fun n => if n = "close" then Except.ok "None" else Except.ok "{}")
        (some 3) "frobnicate" =
        ⟨some 3, [⟨"text", "Error: " ++ ("Unknown tool: " ++ "frobnicate")⟩], true⟩
    ∧ message_loop (fun n => ha_instance_attributes.contains n)
          (fun n => if n = "close" then Except.ok "None" else Except.ok "{}")
          ([MCPMessage.ping (some 0)] ++ MCPMessage.toolsCall (some 3) "frobnicate" ::
            [MCPMessage.ping (some 4)]) =
        message_loop (fun n => ha_instance_attributes.contains n)
            (fun n => if n = "close" then Except.ok "None" else Except.ok "{}")
            [MCPMessage.ping (some 0)] ++
          BridgeReply.toolCallResult
              (handle_tool_call (fun n => ha_instance_attributes.contains n)
                (fun n => if n = "close" then Except.ok "None" else Except.ok "{}")
                (some 3) "frobnicate") ::
            message_loop (fun n => ha_instance_attributes.contains n)
              (fun n => if n = "close" then Except.ok "None" else Except.ok "{}")
              [MCPMessage.ping (some 4)] :=
  ⟨(tool_call_replies (fun n => ha_instance_attributes.contains n)
      (fun n => if n = "close" then Except.ok "None" else Except.ok "{}")
      (some 1) "get_weather" "{}" "e" [] []).1 rfl,
    (tool_call_replies (fun n => ha_instance_attributes.contains n)
      (fun n => if n = "close" then Except.ok "None" else Except.ok "{}")
      (some 2) "close" "None" "e" [] []).1 rfl,
    ((tool_call_replies (fun n => ha_instance_attributes.contains n)
      (fun n => if n = "close" then Except.ok "None" else Except.ok "{}")
      (some 3) "frobnicate" "t" "e" [] []).2.2.1 (by decide)).2,
    (tool_call_replies (fun n => ha_instance_attributes.contains n)
      (fun n => if n = "close" then Except.ok "None" else Except.ok "{}")
      (some 3) "frobnicate" "t" "e"
      [MCPMessage.ping (some 0)] [MCPMessage.ping (some 4)]).2.2.2⟩

/-! ## Theorems: OTA check-in (C8) -/

/-- C8 counterexample: a POST whose body is the valid JSON array `[1,2,3]`
— not an object — makes `device_info.get("application", {})` raise
`AttributeError`, and a POST with the object body `{"mac_address": 5}`
makes `mac.replace` raise; both are caught by the outer `except` and
answered HTTP 500 with an error body.  These 500s are caused by the body
itself, refuting the claim that every POST is answered 200 with a
WebSocket URL, with only unrelated internal errors excepted. -/
theorem checkin_500_counterexample :
    (handle_ota_post "192.168.1.10:8001" 8000 "10.0.0.2"
        (some (Json.arr [Json.num 1, Json.num 2, Json.num 3]))).1 =
      { status := 500, websocket_url := none }
    ∧ (handle_ota_post "192.168.1.10:8001" 8000 "10.0.0.2"
        (some (Json.obj [("mac_address", Json.num 5)]))).1 =
      { status := 500, websocket_url := none } :=
  ⟨rfl, rfl⟩

/-- C8 (amended): a POST to the check-in endpoint is answered HTTP 200 with
the well-formed WebSocket URL `ws://<host>:<port>/ws` — `<host>` from the
request's own Host with any port suffix stripped, `<port>` the configured
WebSocket port — exactly when its body is empty/non-JSON (replaced by `{}`)
or is a JSON object whose `application` and `board` fields, when present,
are objects and whose `mac_address`, when present, is a string; any other
body (valid JSON that is not an object, a non-object `application` or
`board`, a non-string `mac_address`) raises inside the handler and the
outer `except` answers HTTP 500 with an error body.  In particular an
empty or non-JSON body still gets 200 with the URL. -/
theorem checkin_response (host : String) (port : ℕ) (remote : String)
    (body : Option Json) :
    (handle_ota_post host port remote body).1 =
      (if checkin_body_ok body then
        { status := 200,
          websocket_url := some ("ws://" ++ host_without_port host ++ ":" ++
            toString port ++ "/ws") }
      else { status := 500, websocket_url := none })
    ∧ (handle_ota_post host port remote none).1 =
        { status := 200,
          websocket_url := some ("ws://" ++ host_without_port host ++ ":" ++
            toString port ++ "/ws") } := by
  refine ⟨?_, rfl⟩
  match body with
  | none => rfl
  | some Json.null => rfl
  | some (Json.bool b) => rfl
  | some (Json.num q) => rfl
  | some (Json.str s) => rfl
  | some (Json.arr xs) => rfl
  | some (Json.obj kvs) =>
    rcases happ : (kvs.lookup "application").getD (Json.obj [])
        with _ | b1 | q1 | s1 | xs1 | akvs <;>
      rcases hboard : (kvs.lookup "board").getD (Json.obj [])
        with _ | b2 | q2 | s2 | xs2 | bkvs <;>
      rcases hmac : (kvs.lookup "mac_address").getD (Json.str "unknown")
        with _ | b3 | q3 | s3 | xs3 | ckvs <;>
      simp [handle_ota_post, checkin_body_ok, py_dict_get, py_mac_clean,
        happ, hboard, hmac]

/-! ## Theorems: snapshot retention (C6) -/

theorem insertByMtime_length (f : SnapFile) (l : List SnapFile) :
    (insertByMtime f l).length = l.length + 1 := by
  induction l with
  | nil => rfl
  | cons g gs ih =>
    unfold insertByMtime
    split
    · simp
    · simp [ih]

theorem mem_insertByMtime (x f : SnapFile) (l : List SnapFile) :
    x ∈ insertByMtime f l ↔ x = f ∨ x ∈ l := by
  induction l with
  | nil => simp [insertByMtime]
  | cons g gs ih =>
    unfold insertByMtime
    split
    · simp only [List.mem_cons]
    · simp only [List.mem_cons, ih]
      tauto

theorem sortByMtime_length (l : List SnapFile) :
    (sortByMtime l).length = l.length := by
  induction l with
  | nil => rfl
  | cons f fs ih => simp [sortByMtime, insertByMtime_length, ih]

theorem mem_sortByMtime (x : SnapFile) (l : List SnapFile) :
    x ∈ sortByMtime l ↔ x ∈ l := by
  induction l with
  | nil => simp [sortByMtime]
  | cons f fs ih => simp [sortByMtime, mem_insertByMtime, ih]

theorem insertByMtime_pairwise (f : SnapFile) (l : List SnapFile)
    (h : l.Pairwise (fun a b => a.mtime ≤ b.mtime)) :
    (insertByMtime f l).Pairwise (fun a b => a.mtime ≤ b.mtime) := by
  induction l with
  | nil => simp [insertByMtime]
  | cons g gs ih =>
    rcases List.pairwise_cons.mp h with ⟨hg, hgs⟩
    unfold insertByMtime
    split
    · rename_i hlt
      refine List.pairwise_cons.mpr ⟨?_, h⟩
      intro b hb
      rcases List.mem_cons.mp hb with rfl | hb
      · exact le_of_lt hlt
      · exact le_trans (le_of_lt hlt) (hg b hb)
    · rename_i hge
      refine List.pairwise_cons.mpr ⟨?_, ih hgs⟩
      intro b hb
      rcases (mem_insertByMtime b f gs).mp hb with rfl | hb
      · exact le_of_not_lt hge
      · exact hg b hb

theorem sortByMtime_pairwise (l : List SnapFile) :
    (sortByMtime l).Pairwise (fun a b => a.mtime ≤ b.mtime) := by
  induction l with
  | nil => simp [sortByMtime]
  | cons f fs ih => exact insertByMtime_pairwise f _ ih

theorem insertByMtime_eq_cons (f : SnapFile) (l : List SnapFile)
    (h : ∀ b ∈ l, f.mtime < b.mtime) : insertByMtime f l = f :: l := by
  cases l with
  | nil => rfl
  | cons g gs =>
    unfold insertByMtime
    rw [if_pos (h g (List.mem_cons_self g gs))]

theorem sortByMtime_eq_self (l : List SnapFile)
    (h : l.Pairwise (fun a b => a.mtime < b.mtime)) : sortByMtime l = l := by
  induction l with
  | nil => rfl
  | cons f fs ih =>
    rcases List.pairwise_cons.mp h with ⟨hf, hfs⟩
    unfold sortByMtime
    rw [ih hfs, insertByMtime_eq_cons f fs hf]

/-- C6: a cleanup pass first deletes every file older than 7 days regardless
of count (every remaining file is at most 7 days old, and when at most 100
files survive the age pass nothing else is deleted); then, independently,
when more than 100 files remain it deletes files in ascending
modification-time order until exactly 100 remain — every deleted file's
mtime is at most every kept file's mtime. -/
theorem snapshot_cleanup (now : ℚ) (files : List SnapFile) :
    (∀ f ∈ cleanup_snapshots now files, now - f.mtime ≤ max_age_seconds)
    ∧ ((snapshot_survivors now files).length ≤ MAX_SNAPSHOTS →
        cleanup_snapshots now files = snapshot_survivors now files)
    ∧ (MAX_SNAPSHOTS < (snapshot_survivors now files).length →
        (cleanup_snapshots now files).length = MAX_SNAPSHOTS
        ∧ cleanup_snapshots now files =
            (sortByMtime (snapshot_survivors now files)).drop
              ((snapshot_survivors now files).length - MAX_SNAPSHOTS)
        ∧ ∀ f ∈ (sortByMtime (snapshot_survivors now files)).take
              ((snapshot_survivors now files).length - MAX_SNAPSHOTS),
            ∀ g ∈ cleanup_snapshots now files, f.mtime ≤ g.mtime) := by
  refine ⟨?_, ?_, ?_⟩
  · intro f hf
    have hmem : f ∈ snapshot_survivors now files := by
      unfold cleanup_snapshots at hf
      by_cases hc : (snapshot_survivors now files).length ≤ MAX_SNAPSHOTS
      · rwa [if_pos hc] at hf
      · rw [if_neg hc] at hf
        exact (mem_sortByMtime f _).mp (List.mem_of_mem_drop hf)
    exact of_decide_eq_true (List.mem_filter.mp hmem).2
  · intro h
    unfold cleanup_snapshots
    rw [if_pos h]
  · intro h
    have hif : cleanup_snapshots now files =
        (sortByMtime (snapshot_survivors now files)).drop
          ((snapshot_survivors now files).length - MAX_SNAPSHOTS) := by
      unfold cleanup_snapshots
      rw [if_neg (not_le.mpr h)]
    refine ⟨?_, hif, ?_⟩
    · rw [hif, List.length_drop, sortByMtime_length]
      omega
    · intro f hf g hg
      rw [hif] at hg
      have hp := sortByMtime_pairwise (snapshot_survivors now files)
      rw [← List.take_append_drop
        ((snapshot_survivors now files).length - MAX_SNAPSHOTS)
        (sortByMtime (snapshot_survivors now files))] at hp
      exact (List.pairwise_append.mp hp).2.2 f hf g hg

/-- The concrete 110-file scenario from the retention property: files with
distinct modification times 0..109, all fresh at `now = 1000`. -/
def retention_test_files : List SnapFile :=
  (List.range 110).map fun i : ℕ => ⟨toString i, (i : ℚ)⟩

/-- Witness for `snapshot_cleanup`: 110 fresh files with distinct
modification times 0..109 at `now = 1000`; the age pass deletes nothing,
the excess pass deletes exactly the 10 oldest, and 100 files remain. -/
theorem snapshot_cleanup_witness :
    (snapshot_survivors 1000 retention_test_files).length = 110
    ∧ cleanup_snapshots 1000 retention_test_files = retention_test_files.drop 10
    ∧ (cleanup_snapshots 1000 retention_test_files).length = 100 := by
  have hsurv : snapshot_survivors 1000 retention_test_files =
      retention_test_files := by
    unfold snapshot_survivors
    rw [List.filter_eq_self]
    intro f hf
    rcases List.mem_map.mp hf with ⟨i, hi, rfl⟩
    have h0 : (0 : ℚ) ≤ (i : ℚ) := Nat.cast_nonneg i
    simp only [decide_eq_true_iff, max_age_seconds]
    norm_num
    linarith
  have hlen : retention_test_files.length = 110 := by
    simp [retention_test_files]
  have hsorted : sortByMtime retention_test_files = retention_test_files := by
    apply sortByMtime_eq_self
    unfold retention_test_files
    refine List.Pairwise.map _ (fun a b hab => ?_) (List.pairwise_lt_range 110)
    show (a : ℚ) < (b : ℚ)
    exact_mod_cast hab
  have h3 := (snapshot_cleanup 1000 retention_test_files).2.2
    (by rw [hsurv, hlen]; norm_num [MAX_SNAPSHOTS])
  refine ⟨by rw [hsurv, hlen], ?_, ?_⟩
  · rw [h3.2.1, hsurv, hsorted, hlen]
    norm_num [MAX_SNAPSHOTS]
  · rw [h3.1]
    rfl

/-! ## Theorems: threshold clamping invariant (C9) -/

theorem threshold_invariant_step (st : PerceptionThresholds) (c : ThresholdCmd)
    (h : 0 ≤ st.motion_threshold ∧ st.motion_threshold ≤ 1
          ∧ 0 ≤ st.noise_threshold) :
    0 ≤ (apply_threshold_cmd st c).motion_threshold
    ∧ (apply_threshold_cmd st c).motion_threshold ≤ 1
    ∧ 0 ≤ (apply_threshold_cmd st c).noise_threshold := by
  obtain ⟨h1, h2, h3⟩ := h
  cases c with
  | setMotion t =>
    refine ⟨le_max_left 0 _, ?_, h3⟩
    exact max_le (by norm_num) (min_le_left 1 t)
  | setNoise t =>
    exact ⟨h1, h2, le_max_left 0 t⟩

/-- C9: after any sequence of threshold-configuration calls starting from
the initial perception state, the motion threshold lies in `[0, 1]` and the
noise threshold is non-negative. -/
theorem thresholds_clamped (cmds : List ThresholdCmd) :
    0 ≤ (apply_threshold_cmds init_thresholds cmds).motion_threshold
    ∧ (apply_threshold_cmds init_thresholds cmds).motion_threshold ≤ 1
    ∧ 0 ≤ (apply_threshold_cmds init_thresholds cmds).noise_threshold := by
  have general : ∀ (cs : List ThresholdCmd) (st : PerceptionThresholds),
      (0 ≤ st.motion_threshold ∧ st.motion_threshold ≤ 1
        ∧ 0 ≤ st.noise_threshold) →
      0 ≤ (apply_threshold_cmds st cs).motion_threshold
      ∧ (apply_threshold_cmds st cs).motion_threshold ≤ 1
      ∧ 0 ≤ (apply_threshold_cmds st cs).noise_threshold := by
    intro cs
    induction cs with
    | nil => intro st h; exact h
    | cons c rest ih =>
      intro st h
      exact ih (apply_threshold_cmd st c) (threshold_invariant_step st c h)
  exact general cmds init_thresholds
    ⟨by norm_num [init_thresholds], by norm_num [init_thresholds],
      by norm_num [init_thresholds]⟩

end SenseCapWatcher
